import Mathlib

/-!
Shallow embedding of `socketio/transport_xhrpolling.go` from vokal/go-socket.io.

The source implements the xhr-polling transport: a per-exchange socket that
hijacks the raw connection of one HTTP request, optionally applies read and
write deadlines, and answers one `Write` with a hand-built HTTP/1.0 response
before closing the connection.

Modelling choices:
* bytes are `List Nat` (all fixed header text is ASCII, so a string literal
  converts by mapping `Char.toNat`);
* `time.Duration` values and instants are `Nat`; `SetReadDeadline(now.Add(d))`
  becomes storing `now + d` as an absolute expiry;
* Go errors are an inductive `GoError`; an operation returning `error` yields
  `Option GoError` (`none` = nil error);
* the external `io.ReadWriteCloser` (a `*net.TCPConn` after the hijack) is a
  `Conn` record carrying the bytes written so far, a closed flag, the two
  deadlines, and behaviour oracles for the outcome of the next read, write
  and close (an arbitrary environment is modelled by quantifying over them);
* `http.Hijacker.Hijack` is a `Hijacker` record holding its outcome: either a
  fresh `Conn` or an error (on error Go returns a nil conn, modelled `none`);
* of the `*http.Request` only the result of `Header.Get "Origin"` is used by
  the source, plus an opaque identity so distinct requests can be told apart;
* dereferencing a nil connection or request, which would panic in Go, is a
  distinguished unreachable outcome `GoError.nilDeref`; it only arises in
  states no sequence of the exported operations produces.
-/

/-- Errors of the transport: the two sentinel errors of the package and
opaque underlying I/O errors; `nilDeref` marks a Go nil-pointer panic. -/
inductive GoError where
  | errConnected
  | errNotConnected
  | underlying (code : Nat)
  | nilDeref
deriving DecidableEq

/-- Model of the hijacked raw connection (`io.ReadWriteCloser`, concretely a
`*net.TCPConn`).  `written` are the bytes successfully transmitted so far;
`readData`, `readErr`, `writeErr`, `writeAccepted`, `closeErr` are behaviour
oracles describing what the peer and OS will do. -/
structure Conn where
  written : List Nat
  closed : Bool
  readDeadline : Option Nat
  writeDeadline : Option Nat
  readData : List Nat
  readErr : Option GoError
  writeErr : Option GoError
  writeAccepted : Nat
  closeErr : Option GoError
deriving DecidableEq

/-- `bytes.Buffer.WriteTo` on this connection: on success all bytes are
transmitted; on failure only `writeAccepted` of them are, and the oracle
error is returned. -/
def Conn.writeTo (c : Conn) (bs : List Nat) : Conn × Nat × Option GoError :=
  match c.writeErr with
  | none => ({ c with written := c.written ++ bs }, bs.length, none)
  | some e =>
      ({ c with written := c.written ++ bs.take c.writeAccepted },
       (bs.take c.writeAccepted).length, some e)

/-- A read from the connection: delivers pending peer bytes, else the oracle
error (for example a deadline timeout or end of stream). -/
def Conn.read (c : Conn) (bufLen : Nat) : Conn × List Nat × Option GoError :=
  if c.readData = [] then (c, [], c.readErr)
  else ({ c with readData := c.readData.drop bufLen }, c.readData.take bufLen, none)

/-- Closing the connection: marks it closed and returns the oracle error. -/
def Conn.close (c : Conn) : Conn × Option GoError :=
  ({ c with closed := true }, c.closeErr)

/-- The originating HTTP request, reduced to what the source reads from it:
`origin` is the byte sequence `Header.Get "Origin"` returns (empty both when
the header is absent and when it is empty, as in Go), and `id` stands for all
the rest of the request, so that distinct requests are distinguishable. -/
structure Request where
  origin : List Nat
  id : Nat
deriving DecidableEq

/-- The `http.ResponseWriter` seen through its `Hijacker` capability: the
outcome of `Hijack()` — a raw connection, or an error with a nil connection. -/
structure Hijacker where
  hijack : Except GoError Conn

/-- The xhr-polling transport: resource name is fixed, state is the two
configured timeouts. -/
structure xhrPollingTransport where
  rtimeout : Nat
  wtimeout : Nat
deriving DecidableEq

/-- `Resource()` returns the fixed routing identifier. -/
def xhrPollingTransport.Resource (_t : xhrPollingTransport) : String :=
  "xhr-polling"

/-- The per-exchange socket: owning transport, the hijacked connection
(`nil` before a successful accept), the recorded request, and the
`connected` flag. -/
structure xhrPollingSocket where
  t : xhrPollingTransport
  rwc : Option Conn
  req : Option Request
  connected : Bool
deriving DecidableEq

/-- `newSocket()`: a fresh, unconnected socket bound to the transport. -/
def xhrPollingTransport.newSocket (t : xhrPollingTransport) : xhrPollingSocket :=
  { t := t, rwc := none, req := none, connected := false }

/-- ASCII string literal to bytes (every literal the source writes is ASCII,
where code point and UTF-8 byte coincide). -/
def bytesOfString (s : String) : List Nat :=
  s.data.map Char.toNat

/-- The response body the source builds in its `bytes.Buffer`, mirroring the
exact sequence of writes in `xhrPollingSocket.Write`: status line, content
type, content length (decimal), the two CORS lines when the origin is
non-empty, blank line, payload. -/
def responseBytes (origin : List Nat) (p : List Nat) : List Nat :=
  bytesOfString "HTTP/1.0 200 OK\r\n" ++
  bytesOfString "Content-Type: text/plain; charset=UTF-8\r\n" ++
  bytesOfString ("Content-Length: " ++ toString p.length ++ "\r\n") ++
  (if origin = [] then []
   else
     bytesOfString "Access-Control-Allow-Origin: " ++ origin ++ bytesOfString "\r\n" ++
     bytesOfString "Access-Control-Allow-Credentials: true\r\n") ++
  bytesOfString "\r\n" ++
  p

/-- `accept(w, req, proceed)`: rejects when already connected; otherwise
records the request, performs the hijack (on error Go assigns the returned
nil connection to `s.rwc`), and on success applies the configured non-zero
deadlines to the connection, marks the socket connected and invokes the
continuation.  The third component reports whether `proceed` ran. -/
def xhrPollingSocket.accept (s : xhrPollingSocket) (w : Hijacker) (req : Request)
    (now : Nat) : xhrPollingSocket × Option GoError × Bool :=
  if s.connected then (s, some GoError.errConnected, false)
  else
    match w.hijack with
    | Except.error e => ({ s with req := some req, rwc := none }, some e, false)
    | Except.ok c0 =>
        let c1 := if s.t.rtimeout ≠ 0 then
            { c0 with readDeadline := some (now + s.t.rtimeout) } else c0
        let c2 := if s.t.wtimeout ≠ 0 then
            { c1 with writeDeadline := some (now + s.t.wtimeout) } else c1
        ({ s with req := some req, rwc := some c2, connected := true }, none, true)

/-- `Read(p)`: not-connected guard, then a delegated read on the raw
connection.  Returns the bytes read in place of the Go count. -/
def xhrPollingSocket.Read (s : xhrPollingSocket) (bufLen : Nat) :
    xhrPollingSocket × List Nat × Option GoError :=
  if s.connected = false then (s, [], some GoError.errNotConnected)
  else
    match s.rwc with
    | none => (s, [], some GoError.nilDeref)
    | some c =>
        let r := c.read bufLen
        ({ s with rwc := some r.1 }, r.2.1, r.2.2)

/-- `Close()`: not-connected guard, then clears `connected` and closes the
raw connection, returning the close error. -/
def xhrPollingSocket.Close (s : xhrPollingSocket) : xhrPollingSocket × Option GoError :=
  if s.connected = false then (s, some GoError.errNotConnected)
  else
    match s.rwc with
    | none => ({ s with connected := false }, some GoError.nilDeref)
    | some c =>
        let r := c.close
        ({ s with connected := false, rwc := some r.1 }, r.2)

/-- `Write(p)`: not-connected guard, then builds the framed response, writes
the whole buffer to the raw connection, and — via the deferred `s.Close()`,
whose error is discarded — closes the socket before returning.  Returns
`len(p)` and the error of the buffer write. -/
def xhrPollingSocket.Write (s : xhrPollingSocket) (p : List Nat) :
    xhrPollingSocket × Nat × Option GoError :=
  if s.connected = false then (s, 0, some GoError.errNotConnected)
  else
    match s.req, s.rwc with
    | some r, some c =>
        let w := c.writeTo (responseBytes r.origin p)
        let s1 := { s with rwc := some w.1 }
        ((s1.Close).1, p.length, w.2.2)
    | _, _ => (s, 0, some GoError.nilDeref)

/-- Bytes transmitted so far on the connection a socket holds. -/
def sockWritten (s : xhrPollingSocket) : List Nat :=
  match s.rwc with
  | some c => c.written
  | none => []

/-- Whether the connection a socket holds has been closed. -/
def sockClosed (s : xhrPollingSocket) : Bool :=
  match s.rwc with
  | some c => c.closed
  | none => false

/-! ### Helper lemmas -/

/-- The error of a buffer write is exactly the oracle write error. -/
theorem Conn.writeTo_err (c : Conn) (bs : List Nat) : (c.writeTo bs).2.2 = c.writeErr := by
  unfold Conn.writeTo
  cases c.writeErr <;> rfl

/-- On a connected socket the result state of `Write` is: same transport and
request, connection extended by the buffer write and then closed, and the
`connected` flag cleared by the deferred close. -/
theorem write_result_state (t : xhrPollingTransport) (c : Conn) (r : Request)
    (p : List Nat) :
    (xhrPollingSocket.Write ⟨t, some c, some r, true⟩ p).1
      = ⟨t, some { (c.writeTo (responseBytes r.origin p)).1 with closed := true },
          some r, false⟩ := by
  rfl

/-! ### Claim theorems -/

/-- Claim C1: for every payload P, `Write(P)` on a connected socket (here with
a successful underlying write, so the whole buffer reaches the wire) transmits
a response that begins with exactly the status line, the content type line and
the decimal content length line, followed — possibly after CORS headers — by a
blank line and then the payload verbatim. -/
theorem write_builds_framed_response (t : xhrPollingTransport) (c : Conn)
    (r : Request) (p : List Nat) :
    ∃ cors : List Nat,
      sockWritten ((xhrPollingSocket.Write
          ⟨t, some { c with writeErr := none }, some r, true⟩ p).1)
        = c.written ++
          (bytesOfString "HTTP/1.0 200 OK\r\n" ++
           bytesOfString "Content-Type: text/plain; charset=UTF-8\r\n" ++
           bytesOfString ("Content-Length: " ++ toString p.length ++ "\r\n") ++
           cors ++
           bytesOfString "\r\n" ++
           p) := by
  refine ⟨if r.origin = [] then []
    else
      bytesOfString "Access-Control-Allow-Origin: " ++ r.origin ++ bytesOfString "\r\n" ++
      bytesOfString "Access-Control-Allow-Credentials: true\r\n", ?_⟩
  simp [xhrPollingSocket.Write, xhrPollingSocket.Close, Conn.writeTo, Conn.close,
        sockWritten, responseBytes]

/-- Claim C2: `Write` on a connected socket always closes it, whatever the
underlying write did: afterwards the socket is unconnected, its connection is
closed, and each of `Read`, `Write`, `Close` returns the not-connected error. -/
theorem write_always_closes_socket (t : xhrPollingTransport) (c : Conn)
    (r : Request) (p p2 : List Nat) (n : Nat) :
    ((xhrPollingSocket.Write ⟨t, some c, some r, true⟩ p).1.connected = false) ∧
    (sockClosed (xhrPollingSocket.Write ⟨t, some c, some r, true⟩ p).1 = true) ∧
    ((xhrPollingSocket.Write ⟨t, some c, some r, true⟩ p).1.Read n
       = ((xhrPollingSocket.Write ⟨t, some c, some r, true⟩ p).1, [],
          some GoError.errNotConnected)) ∧
    ((xhrPollingSocket.Write ⟨t, some c, some r, true⟩ p).1.Write p2
       = ((xhrPollingSocket.Write ⟨t, some c, some r, true⟩ p).1, 0,
          some GoError.errNotConnected)) ∧
    ((xhrPollingSocket.Write ⟨t, some c, some r, true⟩ p).1.Close
       = ((xhrPollingSocket.Write ⟨t, some c, some r, true⟩ p).1,
          some GoError.errNotConnected)) := by
  rw [write_result_state]
  refine ⟨rfl, rfl, ?_, ?_, ?_⟩ <;>
    simp [xhrPollingSocket.Read, xhrPollingSocket.Write, xhrPollingSocket.Close]

/-- Claim C3: the two CORS lines appear, between the content length line and
the blank line, exactly when the request origin is non-empty, the origin
echoed verbatim; with an absent or empty origin the header section consists of
the three fixed lines only. -/
theorem cors_lines_iff_nonempty_origin (t : xhrPollingTransport) (c : Conn)
    (r : Request) (p : List Nat) :
    sockWritten ((xhrPollingSocket.Write
        ⟨t, some { c with writeErr := none, written := [] }, some r, true⟩ p).1)
      = bytesOfString "HTTP/1.0 200 OK\r\n" ++
        bytesOfString "Content-Type: text/plain; charset=UTF-8\r\n" ++
        bytesOfString ("Content-Length: " ++ toString p.length ++ "\r\n") ++
        (if r.origin = [] then []
         else
           bytesOfString "Access-Control-Allow-Origin: " ++ r.origin ++
           bytesOfString "\r\n" ++
           bytesOfString "Access-Control-Allow-Credentials: true\r\n") ++
        bytesOfString "\r\n" ++
        p := by
  simp [xhrPollingSocket.Write, xhrPollingSocket.Close, Conn.writeTo, Conn.close,
        sockWritten, responseBytes]

/-- Claim C4: whatever the underlying write does (success, partial write or
failure, covered by the arbitrary oracles in `c`), `Write` on a connected
socket returns the payload length as its count, paired with the error of the
underlying buffer write. -/
theorem write_reports_payload_length (t : xhrPollingTransport) (c : Conn)
    (r : Request) (p : List Nat) :
    ((xhrPollingSocket.Write ⟨t, some c, some r, true⟩ p).2.1 = p.length) ∧
    ((xhrPollingSocket.Write ⟨t, some c, some r, true⟩ p).2.2 = c.writeErr) := by
  refine ⟨rfl, ?_⟩
  show (Conn.writeTo c (responseBytes r.origin p)).2.2 = c.writeErr
  exact Conn.writeTo_err c (responseBytes r.origin p)

/-- Claim C5: on an unconnected socket, a successful hijack makes `accept`
record the request, set the read (write) deadline to now plus the timeout
exactly when that timeout is non-zero, mark the socket connected, run the
continuation and return no error; a failed hijack returns that error
unchanged, does not run the continuation, and leaves the socket unconnected. -/
theorem accept_success_and_failure_spec (t : xhrPollingTransport)
    (rw : Option Conn) (rq : Option Request) (req : Request) (now : Nat)
    (c : Conn) (e : GoError) :
    (xhrPollingSocket.accept ⟨t, rw, rq, false⟩ ⟨Except.ok c⟩ req now
       = (⟨t, some { c with
             readDeadline :=
               if t.rtimeout ≠ 0 then some (now + t.rtimeout) else c.readDeadline,
             writeDeadline :=
               if t.wtimeout ≠ 0 then some (now + t.wtimeout) else c.writeDeadline },
           some req, true⟩, none, true)) ∧
    (xhrPollingSocket.accept ⟨t, rw, rq, false⟩ ⟨Except.error e⟩ req now
       = (⟨t, none, some req, false⟩, some e, false)) := by
  constructor
  · by_cases hr : t.rtimeout = 0 <;> by_cases hw : t.wtimeout = 0 <;>
      simp [xhrPollingSocket.accept, hr, hw]
  · rfl

/-- Claim C6: `accept` on an already connected socket returns the
already-connected error, runs no continuation and changes nothing; in the
two-successive-accepts scenario the first call connects the socket and the
second is rejected the same way, leaving the first result intact. -/
theorem accept_rejected_when_connected (t : xhrPollingTransport)
    (rw rw0 : Option Conn) (rq rq0 : Option Request) (w w2 : Hijacker)
    (req req2 : Request) (now now2 : Nat) (c : Conn) :
    (xhrPollingSocket.accept ⟨t, rw, rq, true⟩ w req now
       = (⟨t, rw, rq, true⟩, some GoError.errConnected, false)) ∧
    ((xhrPollingSocket.accept ⟨t, rw0, rq0, false⟩ ⟨Except.ok c⟩ req now).2.1
       = none) ∧
    ((xhrPollingSocket.accept ⟨t, rw0, rq0, false⟩ ⟨Except.ok c⟩ req now).1.connected
       = true) ∧
    (((xhrPollingSocket.accept ⟨t, rw0, rq0, false⟩ ⟨Except.ok c⟩ req now).1).accept
        w2 req2 now2
       = ((xhrPollingSocket.accept ⟨t, rw0, rq0, false⟩ ⟨Except.ok c⟩ req now).1,
          some GoError.errConnected, false)) := by
  refine ⟨rfl, rfl, rfl, ?_⟩
  show xhrPollingSocket.accept ⟨t, _, some req, true⟩ w2 req2 now2 = _
  rfl

/-- Claim C7: on a freshly constructed socket, `Read`, `Write` and `Close`
each return the not-connected error (with zero bytes for the first two) and
leave the socket exactly as it was: unconnected, no connection, no request. -/
theorem fresh_socket_all_ops_not_connected (t : xhrPollingTransport)
    (p : List Nat) (n : Nat) :
    ((t.newSocket).Read n = (t.newSocket, [], some GoError.errNotConnected)) ∧
    ((t.newSocket).Write p = (t.newSocket, 0, some GoError.errNotConnected)) ∧
    ((t.newSocket).Close = (t.newSocket, some GoError.errNotConnected)) ∧
    ((t.newSocket).connected = false) ∧
    ((t.newSocket).rwc = none) ∧
    ((t.newSocket).req = none) := by
  exact ⟨rfl, rfl, rfl, rfl, rfl, rfl⟩

/-- Claim C8: after a successful `accept`, the first `Close` clears the
connected flag, closes the underlying connection and returns its close error;
a second `Close` returns the not-connected error and changes nothing. -/
theorem close_then_close_not_connected (t : xhrPollingTransport)
    (rw : Option Conn) (rq : Option Request) (req : Request) (now : Nat)
    (c : Conn) :
    ((xhrPollingSocket.accept ⟨t, rw, rq, false⟩ ⟨Except.ok c⟩ req now).1.Close.2
       = c.closeErr) ∧
    ((xhrPollingSocket.accept ⟨t, rw, rq, false⟩ ⟨Except.ok c⟩ req now).1.Close.1.connected
       = false) ∧
    (sockClosed (xhrPollingSocket.accept ⟨t, rw, rq, false⟩ ⟨Except.ok c⟩ req now).1.Close.1
       = true) ∧
    ((xhrPollingSocket.accept ⟨t, rw, rq, false⟩ ⟨Except.ok c⟩ req now).1.Close.1.Close
       = ((xhrPollingSocket.accept ⟨t, rw, rq, false⟩ ⟨Except.ok c⟩ req now).1.Close.1,
          some GoError.errNotConnected)) := by
  simp only [xhrPollingSocket.accept, if_neg Bool.false_ne_true]
  refine ⟨?_, ?_, ?_, ?_⟩ <;>
    · show _ = _
      split <;> split <;> rfl

/-- Claim C9: when the hijack fails on an unconnected socket, `accept` has
still overwritten the stored request with the incoming one and the connection
field with the nil result of the failed hijack, while the connected flag stays
false and the hijack error is returned. -/
theorem failed_accept_overwrites_fields (t : xhrPollingTransport)
    (rw : Option Conn) (rq : Option Request) (req : Request) (now : Nat)
    (e : GoError) :
    ((xhrPollingSocket.accept ⟨t, rw, rq, false⟩ ⟨Except.error e⟩ req now).1.req
       = some req) ∧
    ((xhrPollingSocket.accept ⟨t, rw, rq, false⟩ ⟨Except.error e⟩ req now).1.rwc
       = none) ∧
    ((xhrPollingSocket.accept ⟨t, rw, rq, false⟩ ⟨Except.error e⟩ req now).1.connected
       = false) ∧
    ((xhrPollingSocket.accept ⟨t, rw, rq, false⟩ ⟨Except.error e⟩ req now).2.1
       = some e) ∧
    ((xhrPollingSocket.accept ⟨t, rw, rq, false⟩ ⟨Except.error e⟩ req now).2.2
       = false) := by
  exact ⟨rfl, rfl, rfl, rfl, rfl⟩

/-- Claim C10: the error of the deferred `Close` inside `Write` — here an
arbitrary `e`, varied independently of everything else — never reaches the
caller: the error component of `Write` on a connected socket is exactly the
error of writing the buffered response to the connection. -/
theorem write_discards_deferred_close_error (t : xhrPollingTransport)
    (c : Conn) (r : Request) (p : List Nat) (e : Option GoError) :
    ((xhrPollingSocket.Write ⟨t, some { c with closeErr := e }, some r, true⟩ p).2.2
       = (({ c with closeErr := e } : Conn).writeTo (responseBytes r.origin p)).2.2) ∧
    ((xhrPollingSocket.Write ⟨t, some { c with closeErr := e }, some r, true⟩ p).2.2
       = c.writeErr) := by
  refine ⟨rfl, ?_⟩
  show (Conn.writeTo { c with closeErr := e } (responseBytes r.origin p)).2.2 = c.writeErr
  rw [Conn.writeTo_err]
